import Mathlib

/- Shallow embedding of the lib_cpi crate: the JSON value model
   (serde_json Value together with serde_json Number), the parameter
   validation helpers in the validation module, and the CpiExtension
   trait with its defaulted optional methods. -/

/-- Result of the Rust conversion as_f64 on a serde_json Number: an f64
value, kept abstract (integer conversions and raw float payloads are
tracked symbolically; no float arithmetic is performed anywhere). -/
inductive F64
| fromU64 (n : Nat)
| fromI64 (i : Int)
| raw (bits : Nat)
deriving DecidableEq, Repr

/-- Model of serde_json Number: a non-negative integer stored as u64, a
negative integer stored as i64, or a finite double payload. -/
inductive JsonNumber
| posInt (n : Nat)
| negInt (i : Int)
| float (bits : Nat)
deriving DecidableEq, Repr

/-- Model of serde_json Number.is_i64: true for a PosInt that fits in
i64 and for every NegInt, false for every Float. -/
def JsonNumber.is_i64 : JsonNumber → Bool
| .posInt n => decide (n ≤ 2 ^ 63 - 1)
| .negInt _ => true
| .float _ => false

/-- Model of serde_json Number.as_i64. -/
def JsonNumber.as_i64 : JsonNumber → Option Int
| .posInt n => if n ≤ 2 ^ 63 - 1 then some (n : Int) else none
| .negInt i => some i
| .float _ => none

/-- Model of serde_json Number.as_f64, which succeeds on every number. -/
def JsonNumber.as_f64 : JsonNumber → Option F64
| .posInt n => some (.fromU64 n)
| .negInt i => some (.fromI64 i)
| .float b => some (.raw b)

/-- Model of serde_json Value. -/
inductive Value
| null
| bool (b : Bool)
| number (n : JsonNumber)
| str (s : String)
| arr (elems : List Value)
| obj (fields : List (String × Value))
deriving Repr

/-- Argument map: model of HashMap String Value as an association list
(first binding of a key wins, mirroring the unique keys of a HashMap). -/
abbrev Params := List (String × Value)

/-- Model of HashMap.get on an argument map. -/
def getVal (ps : Params) (name : String) : Option Value :=
  (ps.find? (fun p => p.1 == name)).map (fun p => p.2)

/-- Model of HashMap.contains_key, which agrees with get being Some. -/
def containsKey (ps : Params) (name : String) : Bool :=
  (getVal ps name).isSome

/-- Single quote character, used by the format strings of the
validation error messages. -/
def squote : String := String.mk [Char.ofNat 39]

/-- Name wrapped in single quotes, as the format strings produce. -/
def quoted (s : String) : String := squote ++ s ++ squote

/-- Message of the type-mismatch errors in the validation module. -/
def mustBeMsg (name what : String) : String :=
  ("Parameter " ++ quoted name ++ " ") ++ ("must be " ++ what)

/-- Message of the missing-parameter errors in the validation module. -/
def notProvidedMsg (name : String) : String :=
  ("Required parameter " ++ quoted name ++ " ") ++ "not provided"

/-- Embedding of validation::extract_string. -/
def extract_string (ps : Params) (name : String) : Except String String :=
  match getVal ps name with
  | some (Value.str s) => Except.ok s
  | some _ => Except.error (mustBeMsg name "a string")
  | none => Except.error (notProvidedMsg name)

/-- Embedding of validation::extract_string_opt. -/
def extract_string_opt (ps : Params) (name : String) :
    Except String (Option String) :=
  match getVal ps name with
  | some (Value.str s) => Except.ok (some s)
  | some _ => Except.error (mustBeMsg name "a string")
  | none => Except.ok none

/-- Embedding of validation::extract_int; the unwrap on as_i64 is
modelled by getD, whose default branch is proved unreachable. -/
def extract_int (ps : Params) (name : String) : Except String Int :=
  match getVal ps name with
  | some (Value.number n) =>
      match n.is_i64 with
      | true => Except.ok ((n.as_i64).getD 0)
      | false => Except.error (mustBeMsg name "an integer")
  | some _ => Except.error (mustBeMsg name "an integer")
  | none => Except.error (notProvidedMsg name)

/-- Embedding of validation::extract_int_opt. -/
def extract_int_opt (ps : Params) (name : String) :
    Except String (Option Int) :=
  match getVal ps name with
  | some (Value.number n) =>
      match n.is_i64 with
      | true => Except.ok (some ((n.as_i64).getD 0))
      | false => Except.error (mustBeMsg name "an integer")
  | some _ => Except.error (mustBeMsg name "an integer")
  | none => Except.ok none

/-- Embedding of validation::extract_float; the unwrap on as_f64 is
modelled by getD, whose default branch is proved unreachable. -/
def extract_float (ps : Params) (name : String) : Except String F64 :=
  match getVal ps name with
  | some (Value.number n) => Except.ok ((n.as_f64).getD (F64.raw 0))
  | some _ => Except.error (mustBeMsg name "a number")
  | none => Except.error (notProvidedMsg name)

/-- Embedding of validation::extract_bool. -/
def extract_bool (ps : Params) (name : String) : Except String Bool :=
  match getVal ps name with
  | some (Value.bool b) => Except.ok b
  | some _ => Except.error (mustBeMsg name "a boolean")
  | none => Except.error (notProvidedMsg name)

/-- Embedding of validation::extract_json. -/
def extract_json (ps : Params) (name : String) : Except String Value :=
  match getVal ps name with
  | some v => Except.ok v
  | none => Except.error (notProvidedMsg name)

/-- Embedding of validation::validate_params: iterate the required
names in order, fail on the first one missing from the map. -/
def validate_params (ps : Params) (required : List String) :
    Except String Unit :=
  match required with
  | [] => Except.ok ()
  | r :: rest =>
      match containsKey ps r with
      | true => validate_params ps rest
      | false => Except.error (notProvidedMsg r)

/-- Embedding of the ParamType enumeration. -/
inductive ParamType
| string
| number
| boolean
| object
| array
deriving DecidableEq, Repr

/-- Embedding of the ActionParameter struct. -/
structure ActionParameter where
  name : String
  description : String
  required : Bool
  param_type : ParamType
  default_value : Option Value

/-- Embedding of the ActionDefinition struct. -/
structure ActionDefinition where
  name : String
  description : String
  parameters : List ActionParameter

/-- Embedding of the CpiExtension trait: the five mandatory methods
are fields without defaults; default_settings, test_install and
version carry the default bodies of the trait. -/
structure CpiExtension where
  name : String
  provider_type : String
  list_actions : List String
  get_action_definition : String → Option ActionDefinition
  execute_action : String → Params → Except String Value
  default_settings : Params := []
  test_install : Except String Value :=
    Except.ok (Value.obj [("status", Value.str "ok")])
  version : String := "NONE"

/-- An extension implementing only the five mandatory methods, so the
optional capabilities keep their trait defaults. -/
def mkMinimalExtension (nm pt : String) (la : List String)
    (gad : String → Option ActionDefinition)
    (ea : String → Params → Except String Value) : CpiExtension :=
  { name := nm, provider_type := pt, list_actions := la,
    get_action_definition := gad, execute_action := ea }

/-- Substring containment, stated as an append decomposition. -/
def strContains (s sub : String) : Prop :=
  ∃ p q, s = p ++ sub ++ q

/-- Failure whose message contains a given phrase. -/
def failsWith {α : Type} (r : Except String α) (sub : String) : Prop :=
  ∃ e, r = Except.error e ∧ strContains e sub

theorem strContains_mustBe (name what : String) :
    strContains (mustBeMsg name what) ("must be " ++ what) :=
  ⟨"Parameter " ++ quoted name ++ " ", "", by rw [String.append_empty]; rfl⟩

theorem strContains_string (name : String) :
    strContains (mustBeMsg name "a string") "must be a string" := by
  have h := strContains_mustBe name "a string"
  rwa [(by decide : ("must be " ++ "a string") = "must be a string")] at h

theorem strContains_integer (name : String) :
    strContains (mustBeMsg name "an integer") "must be an integer" := by
  have h := strContains_mustBe name "an integer"
  rwa [(by decide : ("must be " ++ "an integer") = "must be an integer")] at h

theorem strContains_numberMsg (name : String) :
    strContains (mustBeMsg name "a number") "must be a number" := by
  have h := strContains_mustBe name "a number"
  rwa [(by decide : ("must be " ++ "a number") = "must be a number")] at h

theorem strContains_boolean (name : String) :
    strContains (mustBeMsg name "a boolean") "must be a boolean" := by
  have h := strContains_mustBe name "a boolean"
  rwa [(by decide : ("must be " ++ "a boolean") = "must be a boolean")] at h

theorem strContains_notProvided (name : String) :
    strContains (notProvidedMsg name) "not provided" :=
  ⟨"Required parameter " ++ quoted name ++ " ", "", by
    rw [String.append_empty]; rfl⟩

theorem strContains_npName (name : String) :
    strContains (notProvidedMsg name) name :=
  ⟨"Required parameter " ++ squote, squote ++ " " ++ "not provided", by
    simp only [notProvidedMsg, quoted, String.append_assoc]⟩

/-- C1: extract_string returns the exact string on a present string
value, fails with a message containing "must be a string" on a present
non-string value, and fails with a message containing "not provided" on
an absent key; the analogous triple holds for extract_bool with boolean
values and "must be a boolean". -/
theorem extract_string_bool_triple (ps : Params) (name : String) :
    ((∀ s, getVal ps name = some (Value.str s) →
        extract_string ps name = Except.ok s)
      ∧ (∀ v, getVal ps name = some v → (∀ s, v ≠ Value.str s) →
          failsWith (extract_string ps name) "must be a string")
      ∧ (getVal ps name = none →
          failsWith (extract_string ps name) "not provided"))
    ∧ ((∀ b, getVal ps name = some (Value.bool b) →
        extract_bool ps name = Except.ok b)
      ∧ (∀ v, getVal ps name = some v → (∀ b, v ≠ Value.bool b) →
          failsWith (extract_bool ps name) "must be a boolean")
      ∧ (getVal ps name = none →
          failsWith (extract_bool ps name) "not provided")) := by
  constructor
  · refine ⟨?_, ?_, ?_⟩
    · intro s h
      simp [extract_string, h]
    · intro v h hv
      refine ⟨mustBeMsg name "a string", ?_, strContains_string name⟩
      cases v <;> first
        | exact absurd rfl (hv _)
        | simp [extract_string, h]
    · intro h
      exact ⟨notProvidedMsg name, by simp [extract_string, h],
        strContains_notProvided name⟩
  · refine ⟨?_, ?_, ?_⟩
    · intro b h
      simp [extract_bool, h]
    · intro v h hv
      refine ⟨mustBeMsg name "a boolean", ?_, strContains_boolean name⟩
      cases v <;> first
        | exact absurd rfl (hv _)
        | simp [extract_bool, h]
    · intro h
      exact ⟨notProvidedMsg name, by simp [extract_bool, h],
        strContains_notProvided name⟩

/-- C1 witness: instantiation at concrete maps. -/
theorem extract_string_bool_triple_witness :
    extract_string [("k", Value.str "v")] "k" = Except.ok "v"
    ∧ extract_bool [("k", Value.bool true)] "k" = Except.ok true :=
  ⟨(extract_string_bool_triple [("k", Value.str "v")] "k").1.1 "v" rfl,
   (extract_string_bool_triple [("k", Value.bool true)] "k").2.1 true rfl⟩

/-- C3: round trip at concrete inputs: a map binding count to the
number 123 yields Ok 123, the empty map yields a failure containing
"not provided", and a map binding count to the string "123" yields a
failure containing "must be an integer". -/
theorem extract_int_roundtrip :
    extract_int [("count", Value.number (JsonNumber.posInt 123))] "count"
      = Except.ok 123
    ∧ failsWith (extract_int ([] : Params) "count") "not provided"
    ∧ failsWith (extract_int [("count", Value.str "123")] "count")
        "must be an integer" :=
  ⟨rfl,
   ⟨notProvidedMsg "count", rfl, strContains_notProvided "count"⟩,
   ⟨mustBeMsg "count" "an integer", rfl, strContains_integer "count"⟩⟩

/-- C4: the opt extractors succeed with none on an absent key, and on a
present key behave exactly as the non-opt forms with the value wrapped
in some, so the type-mismatch failure message is identical and no
default value is ever substituted. -/
theorem opt_extractors_no_default (ps : Params) (name : String) :
    (getVal ps name = none →
      extract_string_opt ps name = Except.ok none
      ∧ extract_int_opt ps name = Except.ok none)
    ∧ (∀ v, getVal ps name = some v →
      extract_string_opt ps name = (extract_string ps name).map some
      ∧ extract_int_opt ps name = (extract_int ps name).map some) := by
  constructor
  · intro h
    exact ⟨by simp [extract_string_opt, h], by simp [extract_int_opt, h]⟩
  · intro v h
    constructor
    · cases v <;> simp [extract_string_opt, extract_string, h, Except.map]
    · cases v with
      | number n =>
          cases hn : n.is_i64 <;>
            simp [extract_int_opt, extract_int, h, hn, Except.map]
      | null => simp [extract_int_opt, extract_int, h, Except.map]
      | bool b => simp [extract_int_opt, extract_int, h, Except.map]
      | str s => simp [extract_int_opt, extract_int, h, Except.map]
      | arr elems => simp [extract_int_opt, extract_int, h, Except.map]
      | obj fields => simp [extract_int_opt, extract_int, h, Except.map]

/-- C4 witness: instantiation at an empty map and a singleton map. -/
theorem opt_extractors_no_default_witness :
    (extract_string_opt ([] : Params) "k" = Except.ok none
      ∧ extract_int_opt ([] : Params) "k" = Except.ok none)
    ∧ (extract_string_opt [("k", Value.str "v")] "k"
        = (extract_string [("k", Value.str "v")] "k").map some
      ∧ extract_int_opt [("k", Value.str "v")] "k"
        = (extract_int [("k", Value.str "v")] "k").map some) :=
  ⟨(opt_extractors_no_default ([] : Params) "k").1 rfl,
   (opt_extractors_no_default [("k", Value.str "v")] "k").2
     (Value.str "v") rfl⟩

/-- C10: a present null value is a type mismatch for every typed
extractor, opt forms included, producing the same must-be message as
any other wrong-typed value and never the not-provided message nor a
tolerated absence, while extract_json returns null verbatim. -/
theorem null_treated_as_type_mismatch (ps : Params) (name : String)
    (h : getVal ps name = some Value.null) :
    extract_string ps name = Except.error (mustBeMsg name "a string")
    ∧ extract_string_opt ps name = Except.error (mustBeMsg name "a string")
    ∧ extract_int ps name = Except.error (mustBeMsg name "an integer")
    ∧ extract_int_opt ps name = Except.error (mustBeMsg name "an integer")
    ∧ extract_float ps name = Except.error (mustBeMsg name "a number")
    ∧ extract_bool ps name = Except.error (mustBeMsg name "a boolean")
    ∧ extract_json ps name = Except.ok Value.null := by
  refine ⟨?_, ?_, ?_, ?_, ?_, ?_, ?_⟩ <;>
    simp [extract_string, extract_string_opt, extract_int,
      extract_int_opt, extract_float, extract_bool, extract_json, h]

/-- C10 witness: instantiation at a map binding k to null. -/
theorem null_treated_as_type_mismatch_witness :
    extract_string [("k", Value.null)] "k"
      = Except.error (mustBeMsg "k" "a string")
    ∧ extract_string_opt [("k", Value.null)] "k"
      = Except.error (mustBeMsg "k" "a string")
    ∧ extract_int [("k", Value.null)] "k"
      = Except.error (mustBeMsg "k" "an integer")
    ∧ extract_int_opt [("k", Value.null)] "k"
      = Except.error (mustBeMsg "k" "an integer")
    ∧ extract_float [("k", Value.null)] "k"
      = Except.error (mustBeMsg "k" "a number")
    ∧ extract_bool [("k", Value.null)] "k"
      = Except.error (mustBeMsg "k" "a boolean")
    ∧ extract_json [("k", Value.null)] "k" = Except.ok Value.null :=
  null_treated_as_type_mismatch [("k", Value.null)] "k" rfl

/-- C5: validate_params succeeds exactly when every required name is a
key of the map, and a failure carries the not-provided message naming
the first name in list order that is missing. -/
theorem validate_params_iff (ps : Params) (required : List String) :
    (validate_params ps required = Except.ok ()
      ↔ ∀ r ∈ required, containsKey ps r = true)
    ∧ (∀ e, validate_params ps required = Except.error e →
        ∃ r, required.find? (fun x => !containsKey ps x) = some r
          ∧ e = notProvidedMsg r
          ∧ strContains e "not provided" ∧ strContains e r) := by
  induction required with
  | nil => simp [validate_params]
  | cons r rest ih =>
    cases hc : containsKey ps r with
    | true =>
      constructor
      · constructor
        · intro h x hx
          rcases List.mem_cons.mp hx with hx | hx
          · exact hx ▸ hc
          · exact (ih.1.mp (by simpa [validate_params, hc] using h)) x hx
        · intro h
          have h2 := ih.1.mpr (fun x hx => h x (List.mem_cons_of_mem _ hx))
          simpa [validate_params, hc] using h2
      · intro e he
        obtain ⟨x, hfind, hmsg, h1, h2⟩ :=
          ih.2 e (by simpa [validate_params, hc] using he)
        exact ⟨x, by simp [List.find?, hc, hfind], hmsg, h1, h2⟩
    | false =>
      constructor
      · constructor
        · intro h
          exact absurd h (by simp [validate_params, hc])
        · intro h
          exact absurd (h r (List.mem_cons_self r rest)) (by simp [hc])
      · intro e he
        have hmsg : e = notProvidedMsg r := by
          have : Except.error (notProvidedMsg r)
              = (Except.error e : Except String Unit) := by
            simpa [validate_params, hc] using he
          exact (Except.error.inj this).symm
        subst hmsg
        exact ⟨r, by simp [List.find?, hc], rfl,
          strContains_notProvided r, strContains_npName r⟩

/-- C5 witness: a singleton requirement missing from the empty map. -/
theorem validate_params_iff_witness :
    ∃ r, (["a"].find? (fun x => !containsKey ([] : Params) x)) = some r
      ∧ notProvidedMsg "a" = notProvidedMsg r
      ∧ strContains (notProvidedMsg "a") "not provided"
      ∧ strContains (notProvidedMsg "a") r :=
  (validate_params_iff ([] : Params) ["a"]).2 (notProvidedMsg "a") rfl

/-- C6: every extraction function is total, returning either a value
or an error, and the unchecked unwraps never fire: the as_i64 unwrap
in extract_int and extract_int_opt is guarded by is_i64, under which
as_i64 is always some, and the as_f64 unwrap in extract_float is on a
conversion that succeeds on every number. -/
theorem validation_total_no_panic (ps : Params) (name : String)
    (n : JsonNumber) :
    (n.is_i64 = true → (n.as_i64).isSome = true)
    ∧ ((n.as_f64).isSome = true)
    ∧ ((∃ v, extract_string ps name = Except.ok v)
        ∨ ∃ e, extract_string ps name = Except.error e)
    ∧ ((∃ v, extract_string_opt ps name = Except.ok v)
        ∨ ∃ e, extract_string_opt ps name = Except.error e)
    ∧ ((∃ v, extract_int ps name = Except.ok v)
        ∨ ∃ e, extract_int ps name = Except.error e)
    ∧ ((∃ v, extract_int_opt ps name = Except.ok v)
        ∨ ∃ e, extract_int_opt ps name = Except.error e)
    ∧ ((∃ v, extract_float ps name = Except.ok v)
        ∨ ∃ e, extract_float ps name = Except.error e)
    ∧ ((∃ v, extract_bool ps name = Except.ok v)
        ∨ ∃ e, extract_bool ps name = Except.error e)
    ∧ ((∃ v, extract_json ps name = Except.ok v)
        ∨ ∃ e, extract_json ps name = Except.error e)
    ∧ ((∀ req, validate_params ps req = Except.ok ()
        ∨ ∃ e, validate_params ps req = Except.error e)) := by
  refine ⟨?_, ?_, ?_, ?_, ?_, ?_, ?_, ?_, ?_, ?_⟩
  · intro h
    cases n with
    | posInt m =>
        have hm : m ≤ 2 ^ 63 - 1 := by
          simpa [JsonNumber.is_i64] using h
        simp [JsonNumber.as_i64]
        omega
    | negInt i => simp [JsonNumber.as_i64]
    | float b => simp [JsonNumber.is_i64] at h
  · cases n <;> simp [JsonNumber.as_f64]
  · cases hr : extract_string ps name with
    | ok v => exact Or.inl ⟨v, rfl⟩
    | error e => exact Or.inr ⟨e, rfl⟩
  · cases hr : extract_string_opt ps name with
    | ok v => exact Or.inl ⟨v, rfl⟩
    | error e => exact Or.inr ⟨e, rfl⟩
  · cases hr : extract_int ps name with
    | ok v => exact Or.inl ⟨v, rfl⟩
    | error e => exact Or.inr ⟨e, rfl⟩
  · cases hr : extract_int_opt ps name with
    | ok v => exact Or.inl ⟨v, rfl⟩
    | error e => exact Or.inr ⟨e, rfl⟩
  · cases hr : extract_float ps name with
    | ok v => exact Or.inl ⟨v, rfl⟩
    | error e => exact Or.inr ⟨e, rfl⟩
  · cases hr : extract_bool ps name with
    | ok v => exact Or.inl ⟨v, rfl⟩
    | error e => exact Or.inr ⟨e, rfl⟩
  · cases hr : extract_json ps name with
    | ok v => exact Or.inl ⟨v, rfl⟩
    | error e => exact Or.inr ⟨e, rfl⟩
  · intro req
    cases hr : validate_params ps req with
    | ok v => exact Or.inl rfl
    | error e => exact Or.inr ⟨e, rfl⟩

/-- C6 witness: the guarded as_i64 conversion succeeds at 5. -/
theorem validation_total_no_panic_witness :
    ((JsonNumber.posInt 5).as_i64).isSome = true :=
  (validation_total_no_panic ([] : Params) "x" (JsonNumber.posInt 5)).1 rfl

/-- C7: extract_float succeeds on every present number, integral or
fractional, returning its as_f64 conversion; a present non-number
fails with a message containing "must be a number" and an absent key
with one containing "not provided". -/
theorem extract_float_triple (ps : Params) (name : String) :
    (∀ n, getVal ps name = some (Value.number n) →
      ∃ f, n.as_f64 = some f ∧ extract_float ps name = Except.ok f)
    ∧ (∀ v, getVal ps name = some v → (∀ n, v ≠ Value.number n) →
        failsWith (extract_float ps name) "must be a number")
    ∧ (getVal ps name = none →
        failsWith (extract_float ps name) "not provided") := by
  refine ⟨?_, ?_, ?_⟩
  · intro n h
    cases n <;>
      exact ⟨_, rfl, by simp [extract_float, h, JsonNumber.as_f64]⟩
  · intro v h hv
    refine ⟨mustBeMsg name "a number", ?_, strContains_numberMsg name⟩
    cases v <;> first
      | exact absurd rfl (hv _)
      | simp [extract_float, h]
  · intro h
    exact ⟨notProvidedMsg name, by simp [extract_float, h],
      strContains_notProvided name⟩

/-- C7 witness: a fractional number and an integral number both yield
a successful float extraction. -/
theorem extract_float_triple_witness :
    (∃ f, (JsonNumber.float 7).as_f64 = some f
      ∧ extract_float [("x", Value.number (JsonNumber.float 7))] "x"
        = Except.ok f)
    ∧ (∃ f, (JsonNumber.posInt 7).as_f64 = some f
      ∧ extract_float [("x", Value.number (JsonNumber.posInt 7))] "x"
        = Except.ok f) :=
  ⟨(extract_float_triple [("x", Value.number (JsonNumber.float 7))] "x").1
      (JsonNumber.float 7) rfl,
   (extract_float_triple [("x", Value.number (JsonNumber.posInt 7))] "x").1
      (JsonNumber.posInt 7) rfl⟩

/-- C2 counterexample: the integer 2 to the 63rd power is integral but
lies above the signed 64 bit range, so the stored number answers false
to is_i64 and extract_int rejects it with the must-be-an-integer
message instead of succeeding as the claim demands. -/
theorem extract_int_integral_overflow_cex :
    extract_int [("count",
        Value.number (JsonNumber.posInt 9223372036854775808))] "count"
      = Except.error (mustBeMsg "count" "an integer")
    ∧ extract_int [("count",
        Value.number (JsonNumber.posInt 9223372036854775808))] "count"
      ≠ Except.ok 9223372036854775808 := by
  constructor
  · rfl
  · show Except.error (mustBeMsg "count" "an integer")
      ≠ Except.ok (9223372036854775808 : Int)
    simp

/-- C2 amended: for a present number, extract_int succeeds exactly
when the number passes is_i64, returning its as_i64 value; a present
number failing is_i64, which includes every float form and every
integer above the signed 64 bit range, fails with a message containing
"must be an integer". -/
theorem extract_int_i64_only (ps : Params) (name : String)
    (n : JsonNumber) (h : getVal ps name = some (Value.number n)) :
    (n.is_i64 = true →
      ∃ z, n.as_i64 = some z ∧ extract_int ps name = Except.ok z)
    ∧ (n.is_i64 = false →
        failsWith (extract_int ps name) "must be an integer") := by
  constructor
  · intro hi
    cases n with
    | posInt m =>
        have hm : m ≤ 2 ^ 63 - 1 := by
          simpa [JsonNumber.is_i64] using hi
        have ha : (JsonNumber.posInt m).as_i64 = some (m : Int) := by
          simp [JsonNumber.as_i64]
          omega
        exact ⟨(m : Int), ha, by simp [extract_int, h, hi, ha]⟩
    | negInt i =>
        exact ⟨i, rfl,
          by simp [extract_int, h, JsonNumber.is_i64, JsonNumber.as_i64]⟩
    | float b => simp [JsonNumber.is_i64] at hi
  · intro hi
    refine ⟨mustBeMsg name "an integer", ?_, strContains_integer name⟩
    simp [extract_int, h, hi]

/-- C2 witness: the amended characterization at the number 123. -/
theorem extract_int_i64_only_witness :
    ∃ z, (JsonNumber.posInt 123).as_i64 = some z
      ∧ extract_int [("count", Value.number (JsonNumber.posInt 123))]
          "count" = Except.ok z :=
  (extract_int_i64_only
    [("count", Value.number (JsonNumber.posInt 123))] "count"
    (JsonNumber.posInt 123) rfl).1 rfl

/-- C8: the default implementation of version returns the fixed
sentinel placeholder string NONE for every minimal extension. -/
theorem version_default_is_sentinel (nm pt : String) (la : List String)
    (gad : String → Option ActionDefinition)
    (ea : String → Params → Except String Value) :
    (mkMinimalExtension nm pt la gad ea).version = "NONE" := rfl

/-- C9: the default implementation of default_settings returns the
empty map and the default implementation of test_install returns a
success result, never an error, for every minimal extension. -/
theorem optional_caps_defaults (nm pt : String) (la : List String)
    (gad : String → Option ActionDefinition)
    (ea : String → Params → Except String Value) :
    (mkMinimalExtension nm pt la gad ea).default_settings = ([] : Params)
    ∧ (mkMinimalExtension nm pt la gad ea).test_install
        = Except.ok (Value.obj [("status", Value.str "ok")])
    ∧ ∃ v, (mkMinimalExtension nm pt la gad ea).test_install
        = Except.ok v :=
  ⟨rfl, rfl, ⟨Value.obj [("status", Value.str "ok")], rfl⟩⟩
